import Mathlib

/-!
# Kitchly — shallow embedding and verification

A shallow embedding of the Kitchly cooking-assistant core
(`src/actions/cookAlong.ts`, `src/actions/confirmAndShop.ts`,
`src/services/instacartService.ts`, `src/providers/kitchenProvider.ts`),
with theorems settling the specification claims about the cook-along
session state machine, the kitchen-state merge, ingredient sanitization
and the grocery-order request helper.

JavaScript numbers are modelled as `Rat` (only order comparisons and
copying are performed on quantities), JS string operations
(`trim`, `toLowerCase`, `toUpperCase`) as explicit functions over the
character list, optional/undefined values as `Option`, and thrown
exceptions as `Except String`.  Rendering `undefined` inside a template
literal yields the text "undefined", as in JS.
-/

namespace Kitchly

/-- The apostrophe character, used inside keyword phrases. -/
def apos : String := String.singleton (Char.ofNat 39)

/-- ASCII whitespace test matching the characters JS `trim` removes
(restricted to the ASCII range used by this code base). -/
def jsIsWhitespace (c : Char) : Bool :=
  c = ' ' || c = '\t' || c = '\n' || c = '\r'

/-- JS `String.prototype.trim` over the character list. -/
def jsTrim (s : String) : String :=
  String.mk (((s.data.dropWhile jsIsWhitespace).reverse.dropWhile jsIsWhitespace).reverse)

/-- JS `String.prototype.toLowerCase` (ASCII). -/
def jsToLower (s : String) : String :=
  String.mk (s.data.map Char.toLower)

/-- JS `String.prototype.toUpperCase` (ASCII). -/
def jsToUpper (s : String) : String :=
  String.mk (s.data.map Char.toUpper)

/-- JS regex word character (`\w`, i.e. `[A-Za-z0-9_]`). -/
def isWordChar (c : Char) : Bool :=
  c.isAlphanum || c = '_'

/-- Does the pattern occur at the head of `rest` with a word boundary
after it (`\b` after the final — word — character of the pattern)? -/
def wordAt (pat rest : List Char) : Bool :=
  pat.isPrefixOf rest &&
    (match rest.drop pat.length with
     | [] => true
     | c :: _ => !isWordChar c)

/-- Scan the text for an occurrence of `pat` preceded by a word
boundary; `prevWord` records whether the previous character was a word
character. -/
def containsWordAux (pat : List Char) (prevWord : Bool) : List Char → Bool
  | [] => false
  | c :: cs =>
    ((!prevWord) && wordAt pat (c :: cs)) || containsWordAux pat (isWordChar c) cs

/-- `/\bpat\b/.test t` for a literal pattern whose first and last
characters are word characters (true of every keyword below). -/
def containsWord (t : String) (pat : String) : Bool :=
  containsWordAux pat.data false t.data

-- ---------------------------------------------------------------------------
-- Data model (src/types, as used by the actions)
-- ---------------------------------------------------------------------------

/-- A measurement `{quantity, unit}`.  Quantities are JS numbers,
modelled as rationals. -/
structure Measurement where
  quantity : Rat
  unit : String
deriving DecidableEq

/-- An `InstacartIngredient` `{name, display_text?, measurements?}`. -/
structure Ingredient where
  name : String
  display_text : Option String := none
  measurements : Option (List Measurement) := none
deriving DecidableEq

/-- A `Recipe` as used by the cook-along and order-building code
(paths relevant to the claims: title, ingredients, instructions). -/
structure Recipe where
  title : String
  ingredients : List Ingredient
  instructions : List String
deriving DecidableEq

/-- An active `CookingSession`.  `currentStep` is a JS number; a
malformed stored session may hold any integer, so it is modelled
as `Int`. -/
structure CookingSession where
  recipe : Recipe
  currentStep : Int
  startedAt : Nat
  isPaused : Bool
deriving DecidableEq

-- ---------------------------------------------------------------------------
-- cookAlong.ts — navigation command detection
-- ---------------------------------------------------------------------------

/-- The navigation command alternatives of `detectNavCommand`. -/
inductive NavCommand where
  | next
  | previous
  | navRepeat
  | done
  | start
  | status
  | ingredients
  | none
deriving DecidableEq

/-- Keywords of `/\b(done|finish|stop|end|exit|quit)\b/`. -/
def donePatterns : List String :=
  ["done", "finish", "stop", "end", "exit", "quit"]

/-- Keywords of `/\b(next|continue|go on|move on|what'?s next|okay|ok|got it)\b/`
(the optional apostrophe expanded into both variants). -/
def nextPatterns : List String :=
  ["next", "continue", "go on", "move on",
   "what" ++ apos ++ "s next", "whats next", "okay", "ok", "got it"]

/-- Keywords of `/\b(previous|prev|back|go back|last step)\b/`. -/
def previousPatterns : List String :=
  ["previous", "prev", "back", "go back", "last step"]

/-- Keywords of `/\b(repeat|again|say that again|one more time|what was that)\b/`. -/
def repeatPatterns : List String :=
  ["repeat", "again", "say that again", "one more time", "what was that"]

/-- Keywords of `/\b(start|begin|let'?s go|let'?s cook|let'?s start|ready)\b/`. -/
def startPatterns : List String :=
  ["start", "begin",
   "let" ++ apos ++ "s go", "lets go",
   "let" ++ apos ++ "s cook", "lets cook",
   "let" ++ apos ++ "s start", "lets start", "ready"]

/-- Keywords of `/\b(where am i|what step|status|progress|how far)\b/`. -/
def statusPatterns : List String :=
  ["where am i", "what step", "status", "progress", "how far"]

/-- Keywords of `/\b(ingredients|what do i need|shopping list|supplies)\b/`. -/
def ingredientsPatterns : List String :=
  ["ingredients", "what do i need", "shopping list", "supplies"]

/-- Does any keyword of the category occur in the text (JS regex
alternation under a shared pair of word boundaries)? -/
def testAny (t : String) (pats : List String) : Bool :=
  pats.any (containsWord t)

/-- `detectNavCommand`: classify the user's message into a navigation
command; an ordered first-match cascade of regex tests over the
lowercased, trimmed text. -/
def detectNavCommand (text : String) : NavCommand :=
  let t := jsTrim (jsToLower text)
  if testAny t donePatterns then NavCommand.done
  else if testAny t nextPatterns then NavCommand.next
  else if testAny t previousPatterns then NavCommand.previous
  else if testAny t repeatPatterns then NavCommand.navRepeat
  else if testAny t startPatterns then NavCommand.start
  else if testAny t statusPatterns then NavCommand.status
  else if testAny t ingredientsPatterns then NavCommand.ingredients
  else NavCommand.none

/-- The ordered category table of `detectNavCommand`, highest priority
first, used to state the first-match property. -/
def navCategories : List (NavCommand × List String) :=
  [(NavCommand.done, donePatterns),
   (NavCommand.next, nextPatterns),
   (NavCommand.previous, previousPatterns),
   (NavCommand.navRepeat, repeatPatterns),
   (NavCommand.start, startPatterns),
   (NavCommand.status, statusPatterns),
   (NavCommand.ingredients, ingredientsPatterns)]

/-- First category of the table one of whose keywords occurs in the
text; `NavCommand.none` when no category matches. -/
def firstMatch (t : String) : List (NavCommand × List String) → NavCommand
  | [] => NavCommand.none
  | (c, pats) :: rest => if testAny t pats then c else firstMatch t rest

/-- Specification-side classifier: ordered first match over the
category table. -/
def navFirstMatch (text : String) : NavCommand :=
  firstMatch (jsTrim (jsToLower text)) navCategories

-- ---------------------------------------------------------------------------
-- cookAlong.ts — formatting helpers
-- ---------------------------------------------------------------------------

/-- JS indexing `recipe.instructions[stepIndex]`: `undefined` (`none`)
when the index is negative or past the end. -/
def instructionAt (r : Recipe) (i : Int) : Option String :=
  if 0 ≤ i then r.instructions.get? i.toNat else Option.none

/-- Rendering of a possibly-`undefined` string inside a JS template
literal. -/
def renderOpt (s : Option String) : String :=
  s.getD "undefined"

/-- `formatStepForVoice`. -/
def formatStepForVoice (recipe : Recipe) (stepIndex : Int) : String :=
  "Step " ++ toString (stepIndex + 1) ++ " of " ++
    toString recipe.instructions.length ++ ": " ++
    renderOpt (instructionAt recipe stepIndex)

/-- JS `Math.round` (round half toward positive infinity). -/
def jsRound (q : Rat) : Int :=
  ⌊q + 1/2⌋

/-- `formatSessionStatus`. -/
def formatSessionStatus (session : CookingSession) : String :=
  let total := session.recipe.instructions.length
  let current := session.currentStep + 1
  let pct := jsRound ((current : Rat) / (total : Rat) * 100)
  "You" ++ apos ++ "re on step " ++ toString current ++ " of " ++
    toString total ++ " for " ++ session.recipe.title ++ " (" ++
    toString pct ++ "% complete)." ++
    (if session.isPaused then " The session is paused." else "")

/-- One rendered measurement `${m.quantity} ${m.unit}` (quantities
rendered via `Rat`). -/
def formatMeasurement (m : Measurement) : String :=
  toString m.quantity ++ " " ++ m.unit

/-- One line of `formatIngredientsForVoice` (JS truthiness: an empty
`display_text` or an empty joined measurement string falls through). -/
def ingredientLine (ing : Ingredient) : String :=
  match ing.display_text with
  | some d =>
    if d ≠ "" then "- " ++ d else ingredientLineMeas ing
  | Option.none => ingredientLineMeas ing
where
  ingredientLineMeas (ing : Ingredient) : String :=
    match ing.measurements with
    | some ms =>
      let meas := String.intercalate ", " (ms.map formatMeasurement)
      if meas ≠ "" then "- " ++ meas ++ " " ++ ing.name else "- " ++ ing.name
    | Option.none => "- " ++ ing.name

/-- `formatIngredientsForVoice`. -/
def formatIngredientsForVoice (recipe : Recipe) : String :=
  "Ingredients for " ++ recipe.title ++ ":\n" ++
    String.intercalate "\n" (recipe.ingredients.map ingredientLine)

-- ---------------------------------------------------------------------------
-- cookAlong.ts — navigation handling with an active session
-- ---------------------------------------------------------------------------

/-- Outcome of one navigation turn with an active session: the write to
`KitchenState.cookingSession` (`none` = no write, `some Option.none` =
session cleared, `some (some s)` = session replaced), the emitted text,
and the handler's `success` flag. -/
structure NavResult where
  sessionUpdate : Option (Option CookingSession)
  text : String
  success : Bool
deriving DecidableEq

/-- The completion message of the `next` branch. -/
def completionText (recipe : Recipe) : String :=
  "That was the last step! Your " ++ recipe.title ++
    " is complete. Enjoy your meal!"

/-- The message of the `done` branch. -/
def endedText (recipe : Recipe) : String :=
  "Cooking session ended for " ++ recipe.title ++ ". Great job!"

/-- The `next` branch of the handler (also reached from the
LLM-fallback response `NEXT`). -/
def navNext (session : CookingSession) : NavResult :=
  let totalSteps : Int := session.recipe.instructions.length
  let nextStep := session.currentStep + 1
  if nextStep ≥ totalSteps then
    { sessionUpdate := some Option.none,
      text := completionText session.recipe, success := true }
  else
    { sessionUpdate := some (some { session with currentStep := nextStep }),
      text := formatStepForVoice session.recipe nextStep, success := true }

/-- The `previous` branch (also reached from the LLM-fallback response
`PREVIOUS`). -/
def navPrevious (session : CookingSession) : NavResult :=
  let prevStep := max 0 (session.currentStep - 1)
  { sessionUpdate := some (some { session with currentStep := prevStep }),
    text := formatStepForVoice session.recipe prevStep, success := true }

/-- The `repeat` branch (also reached from the LLM-fallback response
`REPEAT`): no state write, the current step re-emitted. -/
def navRepeatBranch (session : CookingSession) : NavResult :=
  { sessionUpdate := Option.none,
    text := formatStepForVoice session.recipe session.currentStep,
    success := true }

/-- The `done` branch (also reached from the LLM-fallback response
`DONE`): unconditional session clear. -/
def navDone (session : CookingSession) : NavResult :=
  { sessionUpdate := some Option.none,
    text := endedText session.recipe, success := true }

/-- The `status` branch: no state write. -/
def navStatus (session : CookingSession) : NavResult :=
  { sessionUpdate := Option.none,
    text := formatSessionStatus session, success := true }

/-- The `ingredients` branch: no state write. -/
def navIngredients (session : CookingSession) : NavResult :=
  { sessionUpdate := Option.none,
    text := formatIngredientsForVoice session.recipe, success := true }

/-- The `start` branch: restart at step 0, clear `isPaused`. -/
def navStart (session : CookingSession) : NavResult :=
  { sessionUpdate :=
      some (some { session with currentStep := 0, isPaused := false }),
    text := "Restarting " ++ session.recipe.title ++
      " from the beginning.\n\n" ++ formatStepForVoice session.recipe 0,
    success := true }

/-- CASE A of the `cookAlong` handler: an active session receives a
navigation command.  For the `none` command the (external) LLM response
text is an input; `NEXT`/`PREVIOUS`/`REPEAT`/`DONE` map to the
corresponding transitions, anything else is emitted verbatim (trimmed)
with no state change. -/
def handleActive (session : CookingSession) (cmd : NavCommand)
    (llmResponse : String) : NavResult :=
  match cmd with
  | NavCommand.next => navNext session
  | NavCommand.previous => navPrevious session
  | NavCommand.navRepeat => navRepeatBranch session
  | NavCommand.done => navDone session
  | NavCommand.status => navStatus session
  | NavCommand.ingredients => navIngredients session
  | NavCommand.start => navStart session
  | NavCommand.none =>
    let trimmed := jsToUpper (jsTrim llmResponse)
    if trimmed = "NEXT" then navNext session
    else if trimmed = "PREVIOUS" then navPrevious session
    else if trimmed = "REPEAT" then navRepeatBranch session
    else if trimmed = "DONE" then navDone session
    else
      { sessionUpdate := Option.none,
        text := jsTrim llmResponse, success := true }

-- ---------------------------------------------------------------------------
-- kitchenProvider.ts — kitchen state and shallow merge
-- ---------------------------------------------------------------------------

/-- `UserPreferences` (fields as read by the providers/actions). -/
structure UserPreferences where
  dietaryRestrictions : List String := []
  allergies : List String := []
  cuisinePreferences : List String := []
  servingSize : Option Nat := Option.none
  budget : Option String := Option.none
  cookingSkill : Option String := Option.none
deriving DecidableEq

/-- A `line_items` entry `{name, display_text?, line_item_measurements?}`. -/
structure LineItem where
  name : String
  display_text : Option String := Option.none
  line_item_measurements : Option (List Measurement) := Option.none
deriving DecidableEq

/-- One meal of a meal-plan day. -/
structure Meal where
  type : String
  recipe : String
  description : Option String := Option.none
deriving DecidableEq

/-- One day of a meal plan. -/
structure MealPlanDay where
  day : String
  meals : List Meal
deriving DecidableEq

/-- A `MealPlan`. -/
structure MealPlan where
  title : String
  days : List MealPlanDay
  consolidatedList : List LineItem
  mealPlanText : String
deriving DecidableEq

/-- The per-conversation `KitchenState` aggregate; every field is
optional (`undefined` modelled as `none`). -/
structure KitchenState where
  currentRecipe : Option Recipe := Option.none
  currentMealPlan : Option MealPlan := Option.none
  cookingSession : Option CookingSession := Option.none
  productsLinkUrl : Option String := Option.none
  userPreferences : Option UserPreferences := Option.none
deriving DecidableEq

/-- A `Partial<KitchenState>` patch.  A field of value `none` is a key
absent from the patch object; `some v` is a key present with value `v`
(where `v = Option.none` models a key explicitly set to `undefined`,
which JS object spread still copies). -/
structure KitchenPatch where
  currentRecipe : Option (Option Recipe) := Option.none
  currentMealPlan : Option (Option MealPlan) := Option.none
  cookingSession : Option (Option CookingSession) := Option.none
  productsLinkUrl : Option (Option String) := Option.none
  userPreferences : Option (Option UserPreferences) := Option.none
deriving DecidableEq

/-- `updateKitchenState`: read-then-shallow-merge-then-write, the merge
being JS `{ ...current, ...updates }` — a key present in `updates`
(even with value `undefined`) replaces the field, a key absent leaves
the field of `current` unchanged. -/
def updateKitchenState (current : KitchenState) (updates : KitchenPatch) :
    KitchenState :=
  { currentRecipe := updates.currentRecipe.getD current.currentRecipe,
    currentMealPlan := updates.currentMealPlan.getD current.currentMealPlan,
    cookingSession := updates.cookingSession.getD current.cookingSession,
    productsLinkUrl := updates.productsLinkUrl.getD current.productsLinkUrl,
    userPreferences := updates.userPreferences.getD current.userPreferences }

/-- Apply a navigation turn's session write to the stored state (the
handler's calls to `updateKitchenState` pass only a `cookingSession`
key). -/
def applySessionUpdate (st : KitchenState) :
    Option (Option CookingSession) → KitchenState
  | Option.none => st
  | some u => updateKitchenState st { cookingSession := some u }

/-- One full active-session navigation turn at the kitchen-state level:
classify the user text, run the transition, apply the state write. -/
def cookAlongTurn (st : KitchenState) (session : CookingSession)
    (userText llmResponse : String) : KitchenState × NavResult :=
  let r := handleActive session (detectNavCommand userText) llmResponse
  (applySessionUpdate st r.sessionUpdate, r)

-- ---------------------------------------------------------------------------
-- instacartService.ts — validation and the API request helper
-- ---------------------------------------------------------------------------

/-- `isNonEmptyString` on a string value: non-empty after trimming. -/
def isNonEmptyStr (s : String) : Bool :=
  (jsTrim s).length > 0

/-- `isNonEmptyString` on a possibly-absent value. -/
def isNonEmptyOpt (s : Option String) : Bool :=
  match s with
  | some v => isNonEmptyStr v
  | Option.none => false

/-- The `display_text` field of the sanitised ingredient: kept
(trimmed) only when non-blank, otherwise left unset. -/
def sanitizeDisplay (d : Option String) : Option String :=
  if isNonEmptyOpt d then some (jsTrim (d.getD "")) else Option.none

/-- The `measurements` field of the sanitised ingredient: set only when
a non-empty array was present, in which case entries with non-positive
quantity or blank unit are dropped (with a warning log) and the
survivors get trimmed units.  No default measurement is added here. -/
def sanitizeMeasurements (ms : Option (List Measurement)) :
    Option (List Measurement) :=
  match ms with
  | some l =>
    if l.length > 0 then
      some ((l.filter fun m =>
          decide (0 < m.quantity) && isNonEmptyStr m.unit).map
        fun m => { quantity := m.quantity, unit := jsTrim m.unit })
    else Option.none
  | Option.none => Option.none

/-- `validateIngredient` (service level): reject a blank name, else
return the sanitised ingredient with trimmed name and the two
conditionally-set fields above. -/
def validateIngredient (ingredient : Ingredient) (index : Nat) :
    Except String Ingredient :=
  if !isNonEmptyStr ingredient.name then
    Except.error ("Ingredient at index " ++ toString index ++
      " is missing a valid \"name\".")
  else
    Except.ok
      { name := jsTrim ingredient.name,
        display_text := sanitizeDisplay ingredient.display_text,
        measurements := sanitizeMeasurements ingredient.measurements }

/-- JS `Array.prototype.map` with a throwing callback: sequential,
aborting at the first exception. -/
def mapExceptIdx (f : Ingredient → Nat → Except String Ingredient) :
    Nat → List Ingredient → Except String (List Ingredient)
  | _, [] => Except.ok []
  | i, a :: as =>
    match f a i with
    | Except.error e => Except.error e
    | Except.ok b =>
      match mapExceptIdx f (i + 1) as with
      | Except.error e => Except.error e
      | Except.ok bs => Except.ok (b :: bs)

/-- The request body for `POST /products/recipe` (fields relevant to
the claims; the constant affiliate block and image URL omitted). -/
structure RecipeRequestBody where
  title : String
  ingredients : List Ingredient
  instructions : List String
deriving DecidableEq

/-- The validation and body-building part of
`InstacartService.createRecipe`, up to the network call. -/
def createRecipeBody (recipe : Recipe) : Except String RecipeRequestBody :=
  if !isNonEmptyStr recipe.title then
    Except.error "[InstacartService] Recipe title must be a non-empty string."
  else if recipe.ingredients.length = 0 then
    Except.error "[InstacartService] Recipe must contain at least one ingredient."
  else if recipe.instructions.length = 0 then
    Except.error
      "[InstacartService] Recipe must contain at least one instruction step."
  else
    match mapExceptIdx validateIngredient 0 recipe.ingredients with
    | Except.error e => Except.error e
    | Except.ok ingredients =>
      let instructions :=
        (recipe.instructions.map jsTrim).filter fun s => s.length > 0
      if instructions.length = 0 then
        Except.error
          "[InstacartService] Recipe instructions must contain at least one non-empty step."
      else
        Except.ok
          { title := jsTrim recipe.title,
            ingredients := ingredients, instructions := instructions }

/-- `REQUEST_TIMEOUT_MS`. -/
def REQUEST_TIMEOUT_MS : Nat := 30000

/-- The possible outcomes of the single `fetch` call: the
`AbortController` fires after `REQUEST_TIMEOUT_MS` (an `AbortError`),
or a response arrives with its `ok` flag, status, status text, a
best-effort body text (`none` when unreadable) and the
`products_link_url` field of the parsed JSON (`none` when absent). -/
inductive FetchOutcome where
  | abortTimeout
  | response (ok : Bool) (status : Nat) (statusText : String)
      (bodyText : Option String) (productsLinkUrl : Option String)
deriving DecidableEq

/-- The parsed success response `{products_link_url}`. -/
structure InstacartResponse where
  products_link_url : String
deriving DecidableEq

/-- The timeout error message thrown for an `AbortError`. -/
def timeoutMessage : String :=
  "Instacart API request timed out after " ++
    toString (REQUEST_TIMEOUT_MS / 1000) ++ " seconds."

/-- The error message thrown on a non-2xx response, carrying the
captured body (best-effort). -/
def httpErrorMessage (status : Nat) (statusText : String)
    (bodyText : Option String) : String :=
  "Instacart API returned " ++ toString status ++ " " ++ statusText ++
    ": " ++ bodyText.getD "<unable to read response body>"

/-- The error message thrown when a 2xx response lacks a non-empty
`products_link_url`. -/
def missingLinkMessage : String :=
  "Instacart API response did not contain a valid products_link_url."

/-- `InstacartService.apiRequest`, as a function of the fetch outcome:
abort becomes the distinct timeout error; a non-ok status becomes an
error carrying the captured body; an ok response without a non-empty
`products_link_url` is an error; otherwise the link is returned. -/
def apiRequest (outcome : FetchOutcome) : Except String InstacartResponse :=
  match outcome with
  | FetchOutcome.abortTimeout => Except.error timeoutMessage
  | FetchOutcome.response ok status statusText bodyText link =>
    if !ok then
      Except.error (httpErrorMessage status statusText bodyText)
    else if !isNonEmptyOpt link then
      Except.error missingLinkMessage
    else
      Except.ok { products_link_url := link.getD "" }

/-- `InstacartService.createRecipe`: pre-flight validation and body
building, then the API request. -/
def createRecipe (recipe : Recipe) (fetch : FetchOutcome) :
    Except String InstacartResponse :=
  match createRecipeBody recipe with
  | Except.error e => Except.error e
  | Except.ok _body => apiRequest fetch

-- ---------------------------------------------------------------------------
-- confirmAndShop.ts — createRecipeAction
-- ---------------------------------------------------------------------------

/-- The per-ingredient body of the action-level `validateIngredients`
map: coerce each non-positive quantity to 1; when the ingredient has no
measurements at all, default to `{quantity 1, unit "unit"}`. -/
def validateIngredientsOne (ing : Ingredient) : Ingredient :=
  let measurements :=
    (ing.measurements.getD []).map fun m =>
      { m with quantity := if 0 < m.quantity then m.quantity else 1 }
  let measurements :=
    if measurements.length = 0 then [{ quantity := 1, unit := "unit" }]
    else measurements
  { ing with measurements := some measurements }

/-- `validateIngredients` (action level, runs before the service). -/
def validateIngredients (ingredients : List Ingredient) : List Ingredient :=
  ingredients.map validateIngredientsOne

/-- The outcome of the recipe-extraction LLM call after JSON handling:
either the text failed to parse, or a structured candidate recipe was
obtained. -/
inductive LlmRecipeOutcome where
  | parseFail
  | parsed (data : Recipe)
deriving DecidableEq

/-- Availability of the Instacart service, and — when available — the
outcome of its network call. -/
inductive ServiceCall where
  | unavailable
  | call (fetch : FetchOutcome)
deriving DecidableEq

/-- The completeness check of `createRecipeAction` on the parsed data
(JS truthiness of `title`, non-empty arrays). -/
def recipeDataComplete (data : Recipe) : Bool :=
  data.title ≠ "" && data.ingredients.length > 0 && data.instructions.length > 0

/-- The sanitized recipe the action builds from complete parsed data
(the `recipe` local of `createRecipeAction`). -/
def builtRecipe (data : Recipe) : Recipe :=
  { title := data.title,
    ingredients := validateIngredients data.ingredients,
    instructions := data.instructions }

/-- The structured result of an action handler. -/
structure ActionResult where
  success : Bool
  text : Option String := Option.none
  error : Option String := Option.none
deriving DecidableEq

/-- `createRecipeAction.handler` after the LLM call, as a function of
the parse outcome and the service call outcome.  Returns the action
result and the kitchen-state patch it writes (`none` when it returns
early without writing).  A failed or unavailable Instacart call leaves
`instacartUrl` undefined: the patch still carries the
`productsLinkUrl` key, explicitly undefined. -/
def createRecipeAction (llm : LlmRecipeOutcome) (svc : ServiceCall) :
    ActionResult × Option KitchenPatch :=
  match llm with
  | LlmRecipeOutcome.parseFail =>
    ({ success := false,
       error := some "Failed to parse recipe from the AI response. Please try rephrasing your request." },
     Option.none)
  | LlmRecipeOutcome.parsed data =>
    if !recipeDataComplete data then
      ({ success := false,
         error := some "The generated recipe was incomplete. Please try again with more details." },
       Option.none)
    else
      let recipe := builtRecipe data
      let instacartUrl : Option String :=
        match svc with
        | ServiceCall.unavailable => Option.none
        | ServiceCall.call fetch =>
          match createRecipe recipe fetch with
          | Except.ok resp => some resp.products_link_url
          | Except.error _ => Option.none
      let patch : KitchenPatch :=
        { currentRecipe := some (some recipe),
          productsLinkUrl := some instacartUrl }
      ({ success := true,
         text := some (match instacartUrl with
           | some url => "Instacart link: " ++ url
           | Option.none => "Recipe created (Instacart link unavailable)") },
       some patch)

-- ---------------------------------------------------------------------------
-- Concrete fixtures used by witnesses and counterexamples
-- ---------------------------------------------------------------------------

/-- A five-step recipe. -/
def recipeFive : Recipe :=
  { title := "Pasta",
    ingredients :=
      [{ name := "pasta",
         measurements := some [{ quantity := 1, unit := "lb" }] }],
    instructions :=
      ["step one", "step two", "step three", "step four", "step five"] }

/-- A session on step index 2 of 5. -/
def sessionA : CookingSession :=
  { recipe := recipeFive, currentStep := 2, startedAt := 0, isPaused := false }

/-- A session on the last step index (4 of 5). -/
def sessionB : CookingSession :=
  { recipe := recipeFive, currentStep := 4, startedAt := 0, isPaused := false }

/-- A three-step recipe. -/
def recipeThree : Recipe :=
  { title := "Toast", ingredients := [{ name := "bread" }],
    instructions := ["a", "b", "c"] }

/-- A session whose stored step index (5) is past the end of its
three-instruction recipe, as read back after external tampering. -/
def malformedSession : CookingSession :=
  { recipe := recipeThree, currentStep := 5, startedAt := 0, isPaused := false }

/-- The ingredient of Scenario C: a single negative-quantity
measurement. -/
def flourIngredient : Ingredient :=
  { name := "flour", measurements := some [{ quantity := -1, unit := "cup" }] }

/-- A parsed recipe around the Scenario C ingredient. -/
def flourData : Recipe :=
  { title := "Flour", ingredients := [flourIngredient], instructions := ["mix"] }

/-- An ingredient whose only measurement has a positive quantity but a
blank unit. -/
def oilIngredient : Ingredient :=
  { name := "oil", measurements := some [{ quantity := 2, unit := "" }] }

/-- A parsed recipe around the blank-unit ingredient. -/
def oilData : Recipe :=
  { title := "Oil", ingredients := [oilIngredient], instructions := ["pour"] }

/-- A stored kitchen state holding an order link from a previous
action and an active session. -/
def staleState : KitchenState :=
  { currentRecipe := some recipeFive,
    cookingSession := some sessionA,
    productsLinkUrl := some "https://instacart.example/old" }

-- ---------------------------------------------------------------------------
-- Helper lemmas
-- ---------------------------------------------------------------------------

/-- A session written by the `next` branch stays within bounds. -/
theorem navNext_bounds (s s2 : CookingSession)
    (h0 : 0 ≤ s.currentStep)
    (h : (navNext s).sessionUpdate = some (some s2)) :
    0 ≤ s2.currentStep ∧
      s2.currentStep < (s2.recipe.instructions.length : Int) := by
  unfold navNext at h
  by_cases hc : s.currentStep + 1 ≥ (s.recipe.instructions.length : Int)
  · simp [hc] at h
  · simp [hc] at h
    subst h
    refine ⟨show (0:Int) ≤ s.currentStep + 1 by omega,
      show s.currentStep + 1 < (s.recipe.instructions.length : Int) by omega⟩

/-- A session written by the `previous` branch stays within bounds. -/
theorem navPrevious_bounds (s s2 : CookingSession)
    (h0 : 0 ≤ s.currentStep)
    (h1 : s.currentStep < (s.recipe.instructions.length : Int))
    (h : (navPrevious s).sessionUpdate = some (some s2)) :
    0 ≤ s2.currentStep ∧
      s2.currentStep < (s2.recipe.instructions.length : Int) := by
  unfold navPrevious at h
  simp at h
  subst h
  refine ⟨show (0:Int) ≤ max 0 (s.currentStep - 1) by omega,
    show max 0 (s.currentStep - 1) < (s.recipe.instructions.length : Int)
      by omega⟩

/-- A session written by the `start` branch stays within bounds. -/
theorem navStart_bounds (s s2 : CookingSession)
    (h0 : 0 ≤ s.currentStep)
    (h1 : s.currentStep < (s.recipe.instructions.length : Int))
    (h : (navStart s).sessionUpdate = some (some s2)) :
    0 ≤ s2.currentStep ∧
      s2.currentStep < (s2.recipe.instructions.length : Int) := by
  unfold navStart at h
  simp at h
  subst h
  refine ⟨show (0:Int) ≤ 0 by omega,
    show (0:Int) < (s.recipe.instructions.length : Int) by omega⟩

-- ---------------------------------------------------------------------------
-- C1 — step-index invariant under every navigation transition
-- ---------------------------------------------------------------------------

/-- C1: from an active session whose `currentStep` is in range, every
navigation transition (including the LLM-fallback mappings
`NEXT`/`PREVIOUS`/`REPEAT`/`DONE`) either ends the session or writes a
session still satisfying `0 ≤ currentStep < totalSteps`; `previous` at
step 0 stays at step 0, and `next` at the last step ends the session. -/
theorem nav_step_stays_in_bounds (s : CookingSession) (cmd : NavCommand)
    (llm : String)
    (h0 : 0 ≤ s.currentStep)
    (h1 : s.currentStep < (s.recipe.instructions.length : Int)) :
    (∀ s2, (handleActive s cmd llm).sessionUpdate = some (some s2) →
        0 ≤ s2.currentStep ∧
          s2.currentStep < (s2.recipe.instructions.length : Int)) ∧
    (s.currentStep = 0 →
      (handleActive s NavCommand.previous llm).sessionUpdate =
        some (some { s with currentStep := 0 })) ∧
    (s.currentStep = (s.recipe.instructions.length : Int) - 1 →
      (handleActive s NavCommand.next llm).sessionUpdate =
        some Option.none) := by
  refine ⟨?_, ?_, ?_⟩
  · intro s2 h
    cases cmd with
    | next => exact navNext_bounds s s2 h0 h
    | previous => exact navPrevious_bounds s s2 h0 h1 h
    | start => exact navStart_bounds s s2 h0 h1 h
    | navRepeat => simp [handleActive, navRepeatBranch] at h
    | done => simp [handleActive, navDone] at h
    | status => simp [handleActive, navStatus] at h
    | ingredients => simp [handleActive, navIngredients] at h
    | none =>
      simp only [handleActive] at h
      split at h
      · exact navNext_bounds s s2 h0 h
      · split at h
        · exact navPrevious_bounds s s2 h0 h1 h
        · split at h
          · simp [navRepeatBranch] at h
          · split at h
            · simp [navDone] at h
            · simp at h
  · intro hz
    have hm : max 0 (s.currentStep - 1) = 0 := by omega
    simp [handleActive, navPrevious, hm]
  · intro hl
    have hge : s.currentStep + 1 ≥ (s.recipe.instructions.length : Int) := by
      omega
    simp [handleActive, navNext, hge]

/-- Witness for C1 at concrete sessions: `next` on the last step of a
five-step session ends it, and `previous` at step 0 stays at step 0. -/
theorem nav_step_stays_in_bounds_witness :
    (handleActive sessionB NavCommand.next "").sessionUpdate =
      some Option.none ∧
    (handleActive { sessionA with currentStep := 0 } NavCommand.previous
        "").sessionUpdate =
      some (some { sessionA with currentStep := 0 }) := by
  constructor
  · exact (nav_step_stays_in_bounds sessionB NavCommand.next ""
      (by decide) (by decide)).2.2 (by decide)
  · exact (nav_step_stays_in_bounds { sessionA with currentStep := 0 }
      NavCommand.previous "" (by decide) (by decide)).2.1 (by decide)

-- ---------------------------------------------------------------------------
-- C2 — `next` advances or completes
-- ---------------------------------------------------------------------------

/-- C2: `next` on an active session at step `s` of `n` steps either
advances the stored session to `s+1` and emits text referencing the new
1-based step number (`Step (s+2) of n`), or — when `s+1 = n` — clears
the session and emits the completion message. -/
theorem next_advances_or_completes (s : CookingSession) (llm : String) :
    (s.currentStep + 1 < (s.recipe.instructions.length : Int) →
      (handleActive s NavCommand.next llm).sessionUpdate =
        some (some { s with currentStep := s.currentStep + 1 }) ∧
      (handleActive s NavCommand.next llm).text =
        "Step " ++ toString (s.currentStep + 2) ++ " of " ++
          toString s.recipe.instructions.length ++ ": " ++
          renderOpt (instructionAt s.recipe (s.currentStep + 1))) ∧
    (s.currentStep + 1 = (s.recipe.instructions.length : Int) →
      (handleActive s NavCommand.next llm).sessionUpdate =
        some Option.none ∧
      (handleActive s NavCommand.next llm).text =
        completionText s.recipe) := by
  constructor
  · intro hlt
    have hc : ¬ s.currentStep + 1 ≥ (s.recipe.instructions.length : Int) := by
      omega
    have h2 : s.currentStep + 1 + 1 = s.currentStep + 2 := by ring
    constructor
    · simp [handleActive, navNext, hc]
    · simp [handleActive, navNext, hc, formatStepForVoice, h2]
  · intro heq
    have hc : s.currentStep + 1 ≥ (s.recipe.instructions.length : Int) := by
      omega
    exact ⟨by simp [handleActive, navNext, hc],
      by simp [handleActive, navNext, hc]⟩

/-- Witness for C2: Scenario A (step 2 of 5 → step 3, "Step 4 of 5")
and Scenario B (step 4 of 5 → session cleared, completion text). -/
theorem next_advances_or_completes_witness :
    (handleActive sessionA NavCommand.next "").sessionUpdate =
      some (some { sessionA with currentStep := 3 }) ∧
    (handleActive sessionA NavCommand.next "").text =
      "Step 4 of 5: step four" ∧
    (handleActive sessionB NavCommand.next "").sessionUpdate =
      some Option.none ∧
    (handleActive sessionB NavCommand.next "").text =
      "That was the last step! Your Pasta is complete. Enjoy your meal!" := by
  obtain ⟨hA, hAt⟩ := (next_advances_or_completes sessionA "").1 (by decide)
  obtain ⟨hB, hBt⟩ := (next_advances_or_completes sessionB "").2 (by decide)
  refine ⟨hA, ?_, hB, ?_⟩
  · rw [hAt]; decide
  · rw [hBt]; decide

-- ---------------------------------------------------------------------------
-- C4 — malformed stored step index: no clamping happens
-- ---------------------------------------------------------------------------

/-- Counterexample to C4: on a stored session at step index 5 of a
three-instruction recipe, `repeat` does not clamp — it indexes past the
end of the instruction list (yielding `undefined`) and emits
"Step 6 of 3: undefined", not the text of the last in-range step. -/
theorem no_clamp_counterexample :
    (handleActive malformedSession NavCommand.navRepeat "").text =
      "Step 6 of 3: undefined" ∧
    instructionAt malformedSession.recipe malformedSession.currentStep =
      Option.none ∧
    ¬ (handleActive malformedSession NavCommand.navRepeat "").text =
        formatStepForVoice malformedSession.recipe
          ((malformedSession.recipe.instructions.length : Int) - 1) :=
  ⟨by decide, by decide, by decide⟩

/-- C4 amended: a session read back with `currentStep ≥ totalSteps` is
used unclamped — `repeat` leaves the state unchanged and emits the
out-of-range 1-based step number with `undefined` in place of the
instruction (no error propagates: the handler still reports success),
and `status` likewise performs no state write (it never indexes the
instruction list at all). -/
theorem repeat_unclamped (s : CookingSession) (llm : String)
    (h : (s.recipe.instructions.length : Int) ≤ s.currentStep) :
    (handleActive s NavCommand.navRepeat llm).sessionUpdate =
      Option.none ∧
    (handleActive s NavCommand.navRepeat llm).text =
      "Step " ++ toString (s.currentStep + 1) ++ " of " ++
        toString s.recipe.instructions.length ++ ": " ++ "undefined" ∧
    (handleActive s NavCommand.navRepeat llm).success = true ∧
    (handleActive s NavCommand.status llm).sessionUpdate = Option.none := by
  have h0 : (0:Int) ≤ s.currentStep := by omega
  have hat : instructionAt s.recipe s.currentStep = Option.none := by
    unfold instructionAt
    rw [if_pos h0]
    refine List.get?_eq_none.mpr ?_
    omega
  refine ⟨rfl, ?_, rfl, rfl⟩
  simp [handleActive, navRepeatBranch, formatStepForVoice, hat, renderOpt]

/-- Witness for the amended C4 at the concrete malformed session. -/
theorem repeat_unclamped_witness :
    (malformedSession.recipe.instructions.length : Int) ≤
      malformedSession.currentStep ∧
    (handleActive malformedSession NavCommand.navRepeat "").sessionUpdate =
      Option.none :=
  ⟨by decide, (repeat_unclamped malformedSession "" (by decide)).1⟩

-- ---------------------------------------------------------------------------
-- C9 — `repeat` is idempotent
-- ---------------------------------------------------------------------------

/-- C9: two consecutive `repeat` turns on an active session leave the
stored kitchen state (hence `currentStep`) entirely unchanged and emit
the same instruction text both times. -/
theorem repeat_turn_idempotent (st : KitchenState) (s : CookingSession)
    (u1 u2 l1 l2 : String)
    (_hs : st.cookingSession = some s)
    (h1 : detectNavCommand u1 = NavCommand.navRepeat)
    (h2 : detectNavCommand u2 = NavCommand.navRepeat) :
    (cookAlongTurn st s u1 l1).1 = st ∧
    (cookAlongTurn (cookAlongTurn st s u1 l1).1 s u2 l2).1 = st ∧
    (cookAlongTurn (cookAlongTurn st s u1 l1).1 s u2 l2).2.text =
      (cookAlongTurn st s u1 l1).2.text ∧
    (cookAlongTurn st s u1 l1).2.text =
      formatStepForVoice s.recipe s.currentStep := by
  simp [cookAlongTurn, h1, h2, handleActive, navRepeatBranch,
    applySessionUpdate]

/-- Witness for C9: "repeat" then "say that again" on a concrete stored
state. -/
theorem repeat_turn_idempotent_witness :
    (cookAlongTurn staleState sessionA "repeat" "").1 = staleState ∧
    (cookAlongTurn (cookAlongTurn staleState sessionA "repeat" "").1
        sessionA "say that again" "").2.text =
      (cookAlongTurn staleState sessionA "repeat" "").2.text := by
  have h := repeat_turn_idempotent staleState sessionA "repeat"
    "say that again" "" "" (by decide) (by decide) (by decide)
  exact ⟨h.1, h.2.2.1⟩

-- ---------------------------------------------------------------------------
-- C6 — ordered first-match navigation classification
-- ---------------------------------------------------------------------------

/-- C6: `detectNavCommand` is the ordered first-match classifier over
the category table (priority done > next > previous > repeat > start >
status > ingredients > none); "okay, done" — matching both `done` and
`next` — classifies as the higher-priority `done`, "okay" alone as
`next`, and an utterance matching no category as `none`. -/
theorem detect_is_ordered_first_match :
    (∀ t, detectNavCommand t = navFirstMatch t) ∧
    detectNavCommand "okay, done" = NavCommand.done ∧
    detectNavCommand "okay" = NavCommand.next ∧
    detectNavCommand "mix the sauce" = NavCommand.none :=
  ⟨fun _ => rfl, by decide, by decide, by decide⟩

-- ---------------------------------------------------------------------------
-- C7 — shallow field-level merge of the kitchen state
-- ---------------------------------------------------------------------------

/-- C7: the read-then-shallow-merge-then-write of `updateKitchenState`
is last-writer-wins at field granularity: every top-level field present
in the patch (including one explicitly set to `undefined`, which clears
it) fully replaces the stored field, and every field absent from the
patch is left unchanged. -/
theorem merge_shallow_field_semantics (current : KitchenState)
    (updates : KitchenPatch) :
    (∀ v, updates.currentRecipe = some v →
        (updateKitchenState current updates).currentRecipe = v) ∧
    (updates.currentRecipe = Option.none →
        (updateKitchenState current updates).currentRecipe =
          current.currentRecipe) ∧
    (∀ v, updates.currentMealPlan = some v →
        (updateKitchenState current updates).currentMealPlan = v) ∧
    (updates.currentMealPlan = Option.none →
        (updateKitchenState current updates).currentMealPlan =
          current.currentMealPlan) ∧
    (∀ v, updates.cookingSession = some v →
        (updateKitchenState current updates).cookingSession = v) ∧
    (updates.cookingSession = Option.none →
        (updateKitchenState current updates).cookingSession =
          current.cookingSession) ∧
    (∀ v, updates.productsLinkUrl = some v →
        (updateKitchenState current updates).productsLinkUrl = v) ∧
    (updates.productsLinkUrl = Option.none →
        (updateKitchenState current updates).productsLinkUrl =
          current.productsLinkUrl) ∧
    (∀ v, updates.userPreferences = some v →
        (updateKitchenState current updates).userPreferences = v) ∧
    (updates.userPreferences = Option.none →
        (updateKitchenState current updates).userPreferences =
          current.userPreferences) := by
  refine ⟨?_, ?_, ?_, ?_, ?_, ?_, ?_, ?_, ?_, ?_⟩ <;>
    intros <;> simp_all [updateKitchenState]

/-- Witness for C7: a patch `{cookingSession: undefined}` clears the
stored session (end of a cooking session) while the stored order link,
absent from the patch, survives. -/
theorem merge_shallow_field_semantics_witness :
    (updateKitchenState staleState
        { cookingSession := some Option.none }).cookingSession =
      Option.none ∧
    (updateKitchenState staleState
        { cookingSession := some Option.none }).productsLinkUrl =
      staleState.productsLinkUrl := by
  have h := merge_shallow_field_semantics staleState
    { cookingSession := some Option.none }
  exact ⟨h.2.2.2.2.1 Option.none rfl, h.2.2.2.2.2.2.2.1 rfl⟩

-- ---------------------------------------------------------------------------
-- C8 — apiRequest: timeout, error capture, success shape
-- ---------------------------------------------------------------------------

/-- No HTTP-status error message coincides with the timeout message
(the two differ inside their fixed openings). -/
theorem returned_ne_timeout (x : String) :
    "Instacart API returned " ++ x ≠ timeoutMessage := by
  intro h
  have hd : ("Instacart API returned ").data ++ x.data =
      timeoutMessage.data := by
    rw [← String.data_append, h]
  have h23 := congrArg
    (fun l => List.take ("Instacart API returned ").data.length l) hd
  simp only [List.take_left] at h23
  exact absurd h23 (by decide)

/-- Reassociation of the HTTP error message into prefix-plus-rest
form. -/
theorem httpErrorMessage_shape (status : Nat) (statusText : String)
    (bodyText : Option String) :
    httpErrorMessage status statusText bodyText =
      "Instacart API returned " ++
        (toString status ++ (" " ++ (statusText ++ (": " ++
          bodyText.getD "<unable to read response body>")))) := by
  simp [httpErrorMessage, String.append_assoc]

/-- C8: the request helper's outcome mapping — an abort becomes the
distinct 30-second timeout error and nothing else produces that error;
a non-success status becomes an error that ends with the captured body;
and a success is possible only for an ok response carrying a non-empty
`products_link_url`, which is returned. -/
theorem apiRequest_contract :
    apiRequest FetchOutcome.abortTimeout = Except.error timeoutMessage ∧
    timeoutMessage = "Instacart API request timed out after 30 seconds." ∧
    REQUEST_TIMEOUT_MS = 30000 ∧
    (∀ outcome, apiRequest outcome = Except.error timeoutMessage →
        outcome = FetchOutcome.abortTimeout) ∧
    (∀ status statusText bodyText link,
        apiRequest
            (FetchOutcome.response false status statusText bodyText link) =
          Except.error (httpErrorMessage status statusText bodyText)) ∧
    (∀ status statusText body,
        httpErrorMessage status statusText (some body) =
          ("Instacart API returned " ++ toString status ++ " " ++
            statusText ++ ": ") ++ body) ∧
    (∀ ok status statusText bodyText link r,
        apiRequest (FetchOutcome.response ok status statusText bodyText link) =
          Except.ok r →
        ok = true ∧ isNonEmptyOpt link = true ∧
          r = { products_link_url := link.getD "" }) ∧
    (∀ r, apiRequest FetchOutcome.abortTimeout ≠ Except.ok r) := by
  refine ⟨rfl, rfl, rfl, ?_, ?_, ?_, ?_, ?_⟩
  · intro outcome h
    cases outcome with
    | abortTimeout => rfl
    | response ok status statusText bodyText link =>
      cases ok with
      | false =>
        simp only [apiRequest, Bool.not_false, if_pos] at h
        rw [Except.error.injEq] at h
        rw [httpErrorMessage_shape] at h
        exact absurd h (returned_ne_timeout _)
      | true =>
        by_cases hl : isNonEmptyOpt link = true
        · simp [apiRequest, hl] at h
        · simp [apiRequest, hl] at h
          exact absurd h (by decide)
  · intro status statusText bodyText link
    rfl
  · intro status statusText body
    simp [httpErrorMessage, String.append_assoc]
  · intro ok status statusText bodyText link r h
    cases ok with
    | false => simp [apiRequest] at h
    | true =>
      by_cases hl : isNonEmptyOpt link = true
      · simp [apiRequest, hl] at h
        exact ⟨rfl, hl, h.symm⟩
      · simp [apiRequest, hl] at h
  · intro r h
    simp [apiRequest] at h

/-- Witness for C8 at a concrete ok response carrying a link. -/
theorem apiRequest_contract_witness :
    (true = true) ∧
    isNonEmptyOpt (some "https://instacart.example/link") = true ∧
    ({ products_link_url := "https://instacart.example/link" } :
        InstacartResponse) =
      { products_link_url :=
          (some "https://instacart.example/link").getD "" } :=
  apiRequest_contract.2.2.2.2.2.2.1 true 200 "OK" Option.none
    (some "https://instacart.example/link")
    { products_link_url := "https://instacart.example/link" } rfl

-- ---------------------------------------------------------------------------
-- C3 — sanitization vs. order-building defaults
-- ---------------------------------------------------------------------------

/-- Every measurement surviving the service-level sanitization has a
positive quantity and a non-blank unit. -/
theorem sanitizeMeasurements_pos (ms : Option (List Measurement)) :
    ∀ m ∈ (sanitizeMeasurements ms).getD [], 0 < m.quantity ∧
      m.unit ≠ "" := by
  intro m hm
  cases ms with
  | none => simp [sanitizeMeasurements] at hm
  | some l =>
    by_cases hl : l.length > 0
    · simp [sanitizeMeasurements, hl, List.mem_map, List.mem_filter] at hm
      obtain ⟨m0, ⟨_hm0, hq, hu⟩, rfl⟩ := hm
      refine ⟨hq, ?_⟩
      show jsTrim m0.unit ≠ ""
      intro hcontra
      have hlen : (jsTrim m0.unit).length > 0 := by
        simpa [isNonEmptyStr] using hu
      rw [hcontra] at hlen
      simp at hlen
    · simp [sanitizeMeasurements, hl] at hm

/-- Elements of a successful indexed map are images of list elements
under the callback. -/
theorem mapExceptIdx_mem {f : Ingredient → Nat → Except String Ingredient} :
    ∀ {i : Nat} {l ys : List Ingredient},
      mapExceptIdx f i l = Except.ok ys →
      ∀ y ∈ ys, ∃ x ∈ l, ∃ j, f x j = Except.ok y := by
  intro i l
  induction l generalizing i with
  | nil =>
    intro ys h y hy
    simp [mapExceptIdx] at h
    subst h
    cases hy
  | cons a as ih =>
    intro ys h y hy
    cases hfa : f a i with
    | error e => simp [mapExceptIdx, hfa] at h
    | ok b =>
      cases hrec : mapExceptIdx f (i + 1) as with
      | error e => simp [mapExceptIdx, hfa, hrec] at h
      | ok bs =>
        simp [mapExceptIdx, hfa, hrec] at h
        subst h
        rcases List.mem_cons.mp hy with rfl | hmem
        · exact ⟨a, List.mem_cons_self a as, i, hfa⟩
        · obtain ⟨x, hx, j, hj⟩ := ih hrec y hmem
          exact ⟨x, List.mem_cons_of_mem a hx, j, hj⟩

/-- A successfully sanitised ingredient's measurements are the
sanitised measurements of its input. -/
theorem validateIngredient_ok_measurements (x : Ingredient) (j : Nat)
    (out : Ingredient) (h : validateIngredient x j = Except.ok out) :
    out.measurements = sanitizeMeasurements x.measurements := by
  unfold validateIngredient at h
  split at h
  · cases h
  · rw [Except.ok.injEq] at h
    rw [← h]

/-- Every measurement in a built recipe-order request body has a
positive quantity and a non-blank unit. -/
theorem createRecipeBody_measurements (recipe : Recipe)
    (body : RecipeRequestBody)
    (h : createRecipeBody recipe = Except.ok body) :
    ∀ ing ∈ body.ingredients, ∀ m ∈ ing.measurements.getD [],
      0 < m.quantity ∧ m.unit ≠ "" := by
  unfold createRecipeBody at h
  split at h
  · cases h
  · split at h
    · cases h
    · split at h
      · cases h
      · split at h
        · cases h
        · rename_i ys hys
          dsimp only at h
          split at h
          · cases h
          · rw [Except.ok.injEq] at h
            intro ing hing m hm
            have hingys : ing ∈ ys := by
              rw [← h] at hing
              simpa using hing
            obtain ⟨x, _hx, j, hj⟩ := mapExceptIdx_mem hys ing hingys
            rw [validateIngredient_ok_measurements x j ing hj] at hm
            exact sanitizeMeasurements_pos x.measurements m hm

/-- The action-level validation leaves every ingredient with at least
one measurement, all with positive quantities. -/
theorem validateIngredientsOne_spec (a : Ingredient) :
    0 < ((validateIngredientsOne a).measurements.getD []).length ∧
    ∀ m ∈ (validateIngredientsOne a).measurements.getD [],
      0 < m.quantity := by
  unfold validateIngredientsOne
  by_cases hc : ((a.measurements.getD []).map fun m =>
      { m with quantity := if 0 < m.quantity then m.quantity else 1 }).length
      = 0
  · simp [hc]
  · simp only [hc, if_neg, Option.getD_some]
    refine ⟨by simpa using Nat.pos_of_ne_zero (by simpa using hc), ?_⟩
    intro m hm
    obtain ⟨m0, _hm0, rfl⟩ := List.mem_map.mp (by simpa using hm)
    dsimp
    split
    · assumption
    · norm_num

/-- C3 amended: the action-level validation (which runs *before* the
service-level sanitization, not after it) coerces non-positive
quantities to 1 and defaults measurement-less ingredients to
`{1, "unit"}`, so every action-validated ingredient carries at least
one positive measurement; the service-level sanitization then drops
non-positive or blank-unit measurements with no re-defaulting, so every
measurement actually submitted is positive with a non-blank unit — and
the Scenario C ingredient `{flour, [{-1, "cup"}]}` is submitted with
the coerced `{1, "cup"}`, not with the `{1, "unit"}` default. -/
theorem sanitization_pipeline :
    (∀ ings, ∀ ing ∈ validateIngredients ings,
        0 < (ing.measurements.getD []).length ∧
        ∀ m ∈ ing.measurements.getD [], 0 < m.quantity) ∧
    (∀ recipe body, createRecipeBody recipe = Except.ok body →
        ∀ ing ∈ body.ingredients, ∀ m ∈ ing.measurements.getD [],
          0 < m.quantity ∧ m.unit ≠ "") ∧
    createRecipeBody (builtRecipe flourData) =
      Except.ok
        { title := "Flour",
          ingredients :=
            [{ name := "flour",
               measurements := some [{ quantity := 1, unit := "cup" }] }],
          instructions := ["mix"] } := by
  refine ⟨?_, createRecipeBody_measurements, rfl⟩
  intro ings ing hing
  obtain ⟨a, _ha, rfl⟩ := List.mem_map.mp hing
  exact validateIngredientsOne_spec a

/-- Witness for the amended C3: the Scenario C measurement as actually
submitted is positive with unit "cup". -/
theorem sanitization_pipeline_witness :
    0 < ({ quantity := 1, unit := "cup" } : Measurement).quantity ∧
    ({ quantity := 1, unit := "cup" } : Measurement).unit ≠ "" :=
  sanitization_pipeline.2.1 (builtRecipe flourData)
    { title := "Flour",
      ingredients :=
        [{ name := "flour",
           measurements := some [{ quantity := 1, unit := "cup" }] }],
      instructions := ["mix"] }
    rfl
    { name := "flour",
      measurements := some [{ quantity := 1, unit := "cup" }] }
    (by simp)
    { quantity := 1, unit := "cup" }
    (by simp)

/-- Counterexample to C3 as stated: in the real pipeline the Scenario C
ingredient is *not* sanitised to an empty measurement list and then
defaulted to `{1, "unit"}` — the action-level coercion runs first, so
it is submitted with `{1, "cup"}`; and an ingredient whose only
measurement has a positive quantity but a blank unit is submitted with
*no* measurements at all (nothing re-defaults after the service-level
drop), violating the claimed invariant. -/
theorem sanitization_counterexample :
    createRecipeBody (builtRecipe flourData) =
      Except.ok
        { title := "Flour",
          ingredients :=
            [{ name := "flour",
               measurements := some [{ quantity := 1, unit := "cup" }] }],
          instructions := ["mix"] } ∧
    (some [({ quantity := 1, unit := "cup" } : Measurement)] ≠
      some [({ quantity := 1, unit := "unit" } : Measurement)]) ∧
    (some [({ quantity := 1, unit := "cup" } : Measurement)] ≠
      some ([] : List Measurement)) ∧
    createRecipeBody (builtRecipe oilData) =
      Except.ok
        { title := "Oil",
          ingredients := [{ name := "oil", measurements := some [] }],
          instructions := ["pour"] } :=
  ⟨rfl, by decide, by decide, rfl⟩

-- ---------------------------------------------------------------------------
-- C5 — grocery-API failure is non-fatal to recipe creation
-- ---------------------------------------------------------------------------

/-- C5: when the Instacart call fails (any error, including the
timeout), `createRecipeAction` still reports success with no error,
writes the generated recipe to the kitchen state, leaves the order link
unset, and surfaces a no-link success text. -/
theorem network_failure_nonfatal (data : Recipe) (fetch : FetchOutcome)
    (hdata : recipeDataComplete data = true)
    (hfail : ∀ r, createRecipe (builtRecipe data) fetch ≠ Except.ok r) :
    (createRecipeAction (LlmRecipeOutcome.parsed data)
        (ServiceCall.call fetch)).1.success = true ∧
    (createRecipeAction (LlmRecipeOutcome.parsed data)
        (ServiceCall.call fetch)).1.error = Option.none ∧
    (createRecipeAction (LlmRecipeOutcome.parsed data)
        (ServiceCall.call fetch)).2 =
      some { currentRecipe := some (some (builtRecipe data)),
             productsLinkUrl := some Option.none } ∧
    (createRecipeAction (LlmRecipeOutcome.parsed data)
        (ServiceCall.call fetch)).1.text =
      some "Recipe created (Instacart link unavailable)" := by
  cases hc : createRecipe (builtRecipe data) fetch with
  | ok r => exact absurd hc (hfail r)
  | error e => simp [createRecipeAction, hdata, hc]

/-- Witness for C5: Scenario D — the Instacart call times out, the
recipe is still persisted with the link left unset and the action
succeeds. -/
theorem network_failure_nonfatal_witness :
    (createRecipeAction (LlmRecipeOutcome.parsed flourData)
        (ServiceCall.call FetchOutcome.abortTimeout)).1.success = true ∧
    (createRecipeAction (LlmRecipeOutcome.parsed flourData)
        (ServiceCall.call FetchOutcome.abortTimeout)).2 =
      some { currentRecipe := some (some (builtRecipe flourData)),
             productsLinkUrl := some Option.none } := by
  have h := network_failure_nonfatal flourData FetchOutcome.abortTimeout
    (by decide)
    (fun r hr => by
      rw [show createRecipe (builtRecipe flourData)
          FetchOutcome.abortTimeout = Except.error timeoutMessage from rfl]
        at hr
      cases hr)
  exact ⟨h.1, h.2.2.1⟩

-- ---------------------------------------------------------------------------
-- C10 — the action's patch always carries productsLinkUrl
-- ---------------------------------------------------------------------------

/-- C10: every patch `createRecipeAction` writes carries the
`productsLinkUrl` key; when the order call failed or the service is
unavailable that key is explicitly undefined, so the shallow merge
clears any order link stored by a previous action. -/
theorem patch_clears_stale_link :
    (∀ llm svc patch, (createRecipeAction llm svc).2 = some patch →
        patch.productsLinkUrl.isSome = true) ∧
    (∀ data svc current,
        (svc = ServiceCall.unavailable ∨
          ∃ fetch, svc = ServiceCall.call fetch ∧
            ∀ r, createRecipe (builtRecipe data) fetch ≠ Except.ok r) →
        ∀ patch,
          (createRecipeAction (LlmRecipeOutcome.parsed data) svc).2 =
            some patch →
          patch.productsLinkUrl = some Option.none ∧
          (updateKitchenState current patch).productsLinkUrl =
            Option.none) := by
  constructor
  · intro llm svc patch hp
    cases llm with
    | parseFail => simp [createRecipeAction] at hp
    | parsed data =>
      by_cases hd : recipeDataComplete data = true
      · simp [createRecipeAction, hd] at hp
        subst hp
        rfl
      · simp [createRecipeAction, hd] at hp
  · intro data svc current hfail patch hp
    by_cases hd : recipeDataComplete data = true
    · rcases hfail with rfl | ⟨fetch, rfl, hne⟩
      · simp [createRecipeAction, hd] at hp
        subst hp
        exact ⟨rfl, rfl⟩
      · cases hc : createRecipe (builtRecipe data) fetch with
        | ok r => exact absurd hc (hne r)
        | error e =>
          simp [createRecipeAction, hd, hc] at hp
          subst hp
          exact ⟨rfl, rfl⟩
    · simp [createRecipeAction, hd] at hp

/-- Witness for C10: with the service unavailable, the patch written
over a state holding a previous order link clears that link. -/
theorem patch_clears_stale_link_witness :
    ({ currentRecipe := some (some (builtRecipe flourData)),
       productsLinkUrl := some Option.none } :
        KitchenPatch).productsLinkUrl = some Option.none ∧
    (updateKitchenState staleState
        { currentRecipe := some (some (builtRecipe flourData)),
          productsLinkUrl := some Option.none }).productsLinkUrl =
      Option.none :=
  patch_clears_stale_link.2 flourData ServiceCall.unavailable staleState
    (Or.inl rfl)
    { currentRecipe := some (some (builtRecipe flourData)),
      productsLinkUrl := some Option.none }
    rfl

end Kitchly
